import Mathlib

/-!
Shallow embedding of the filter-to-view reactive pipeline of the used-vehicle
dashboard (`src/app.py`): the dataset rows, the three view callbacks
(`update_mileage_chart`, `update_price_graph`, `update_table`), the layout
defaults (`sorted_brands`, `first_brand`, year slider bounds), and the
plotly-express discrete color assignment the figures use.

Numeric columns are embedded exactly: `model_year` as `Int`, `mileage` and
`price` as `ℚ` (pandas' floating point means are modelled as exact rational
arithmetic).  A pandas DataFrame is an ordered list of rows; boolean-mask
filtering is `List.filter`; `groupby(...).mean()` with pandas' default
`sort=True` is: distinct keys sorted lexicographically, each mapped to the
arithmetic mean of its group.  Plotly's `color_discrete_sequence` assigns the
i-th color of the palette to the i-th distinct category value in order of
first appearance in the data, cycling modulo the palette length.
-/

namespace Dashboard

/-- One record of the dataset (`data.csv` row): the six columns §3 of the
spec names and `app.py` reads (`brand`, `model`, `model_year`, `mileage`,
`price`, `transmission`). -/
structure Row where
  brand : String
  model : String
  model_year : Int
  mileage : ℚ
  price : ℚ
  transmission : String
deriving Repr, DecidableEq

/-- The dataset's ordered attribute list (its schema).  `update_table`
returns `filtered_df.columns`, which row-filtering leaves equal to the
dataset's own column list. -/
def datasetColumns : List String :=
  ["brand", "model", "model_year", "mileage", "price", "transmission"]

/-- `colors` from `app.py` lines 41-46: the fixed 6-color palette passed as
`color_discrete_sequence` to both figures. -/
def colors : List String :=
  ["#EF553B", "#377eb8", "#999999", "#54A24B", "#F58518", "#EECA3B"]

/-- Distinct elements of a list in order of first appearance (the order
`pandas.unique` and plotly's category collection use). -/
def dedupFirst {α : Type} [DecidableEq α] : List α → List α
  | [] => []
  | a :: l => a :: (dedupFirst l).filter (fun b => b ≠ a)

/-- Insert an element into a sorted list, before the first element it
compares `le` to (so sorting with it is stable). -/
def insertSorted {α : Type} (le : α → α → Bool) (a : α) : List α → List α
  | [] => [a]
  | b :: l => if le a b then a :: b :: l else b :: insertSorted le a l

/-- Stable insertion sort, modelling Python's stable `sorted` and pandas'
sorted `groupby` keys. -/
def insertionSort {α : Type} (le : α → α → Bool) : List α → List α
  | [] => []
  | a :: l => insertSorted le a (insertionSort le l)

/-- `df[df['brand'].isin(selected_brands)]` — the row filter of
`update_mileage_chart`. -/
def brandFilter (df : List Row) (selected_brands : List String) : List Row :=
  df.filter (fun r => selected_brands.contains r.brand)

/-- Lexicographic order on (brand, transmission) keys: the order pandas'
`groupby` (default `sort=True`) emits the groups in.  String comparison is
code-point lexicographic, i.e. `<` on the character lists (which is the
definition of `String.instLT`). -/
def pairLe (p q : String × String) : Bool :=
  decide (p.1.data < q.1.data) ||
    (p.1 == q.1 && (decide (p.2.data < q.2.data) || p.2 == q.2))

/-- The distinct (brand, transmission) keys of `groupby(['brand',
'transmission'])`, in the sorted order pandas returns them. -/
def groupKeys (rows : List Row) : List (String × String) :=
  insertionSort pairLe (dedupFirst (rows.map (fun r => (r.brand, r.transmission))))

/-- The rows of one `groupby(['brand', 'transmission'])` group. -/
def groupRows (rows : List Row) (p : String × String) : List Row :=
  rows.filter (fun r => r.brand == p.1 && r.transmission == p.2)

/-- Arithmetic mean of the `mileage` column over a list of rows. -/
def meanMileage (rows : List Row) : ℚ :=
  (rows.map Row.mileage).sum / rows.length

/-- `filtered_df.groupby(['brand', 'transmission'])['mileage'].mean().reset_index()`:
one (brand, transmission, mean mileage) triple per distinct key, keys
sorted. -/
def avg_mileage (rows : List Row) : List (String × String × ℚ) :=
  (groupKeys rows).map (fun p => (p.1, p.2, meanMileage (groupRows rows p)))

/-- The distinct `transmission` category values of the grouped data, in
order of first appearance — the order plotly express walks when assigning
discrete colors. -/
def transmissionCategories (triples : List (String × String × ℚ)) : List String :=
  dedupFirst (triples.map (fun t => t.2.1))

/-- Plotly's discrete color assignment: the i-th category receives the
i-th palette color, cycling modulo the palette length. -/
def colorAssignment (cats : List String) : List (String × String) :=
  cats.enum.map (fun p => (p.2, colors.getD (p.1 % colors.length) ""))

/-- Result of `update_mileage_chart`: either the no-data figure (line 113)
or the faceted bar-chart data — the grouped triples plus the
transmission-to-color assignment `px.bar(..., color='transmission',
color_discrete_sequence=colors)` produces. -/
inductive MileageOutput where
  | noData (title : String)
  | chart (triples : List (String × String × ℚ)) (colorMap : List (String × String))
deriving Repr, DecidableEq

/-- `update_mileage_chart` (`app.py` lines 107-145). -/
def update_mileage_chart (df : List Row) (selected_brands : List String) :
    MileageOutput :=
  let filtered_df := brandFilter df selected_brands
  if filtered_df.isEmpty then
    .noData "No data available for selected brands"
  else
    let avg := avg_mileage filtered_df
    .chart avg (colorAssignment (transmissionCategories avg))

/-- The (brand, transmission, meanMileage) triples an output carries; the
no-data figure carries none. -/
def MileageOutput.triples : MileageOutput → List (String × String × ℚ)
  | .noData _ => []
  | .chart ts _ => ts

/-- The transmission-to-color assignment an output carries. -/
def MileageOutput.colorMap : MileageOutput → List (String × String)
  | .noData _ => []
  | .chart _ cm => cm

/-- One scatterplot point of `update_price_graph`: `x=model_year`,
`y=price`, color keyed by `brand`, hover tooltip `model`. -/
structure PricePoint where
  x : Int
  y : ℚ
  colorKey : String
  tooltip : String
deriving Repr, DecidableEq

/-- Result of `update_price_graph`: the no-data figure (line 160) or the
scatter points together with the integer tick values forced on the x
axis. -/
inductive PriceOutput where
  | noData (title : String)
  | chart (points : List PricePoint) (tickvals : List Int)
deriving Repr, DecidableEq

/-- The combined brand/year-range row filter of `update_price_graph`
(lines 155-157): `brand ∈ selected_brands` and
`selected_years[0] ≤ model_year ≤ selected_years[1]`. -/
def yearFilter (df : List Row) (selected_brands : List String) (y0 y1 : Int) :
    List Row :=
  df.filter (fun r =>
    selected_brands.contains r.brand && decide (y0 ≤ r.model_year) &&
      decide (r.model_year ≤ y1))

/-- `range(selected_years[0], selected_years[1] + 1)`: the whole-year tick
values (lines 169-173). -/
def tickRange (y0 y1 : Int) : List Int :=
  (List.range (y1 + 1 - y0).toNat).map (fun i : Nat => y0 + (i : Int))

/-- `update_price_graph` (`app.py` lines 154-190). -/
def update_price_graph (df : List Row) (selected_brands : List String)
    (y0 y1 : Int) : PriceOutput :=
  let filtered_df := yearFilter df selected_brands y0 y1
  if filtered_df.isEmpty then
    .noData "No data available for selected criteria"
  else
    .chart (filtered_df.map (fun r => ⟨r.model_year, r.price, r.brand, r.model⟩))
      (tickRange y0 y1)

/-- The points an output carries; the no-data figure carries none. -/
def PriceOutput.points : PriceOutput → List PricePoint
  | .noData _ => []
  | .chart ps _ => ps

/-- The x-axis tick values an output carries. -/
def PriceOutput.ticks : PriceOutput → List Int
  | .noData _ => []
  | .chart _ ts => ts

/-- Result of `update_table`: the "No data available for X" heading
(line 203) or the titled `DataTable` with its column list, row records and
fixed `page_size`. -/
inductive TableOutput where
  | noData (message : String)
  | table (title : String) (columns : List String) (rows : List Row)
      (pageSize : Nat)
deriving Repr, DecidableEq

/-- `update_table` (`app.py` lines 198-216). -/
def update_table (df : List Row) (selected_brand : String) : TableOutput :=
  let filtered_df := df.filter (fun r => r.brand == selected_brand)
  if filtered_df.isEmpty then
    .noData ("No data available for " ++ selected_brand)
  else
    .table ("Data Table for " ++ selected_brand ++ " vehicles")
      datasetColumns filtered_df 9

/-- The row records an output carries; the no-data message carries none. -/
def TableOutput.rows : TableOutput → List Row
  | .noData _ => []
  | .table _ _ rs _ => rs

/-- The column list an output carries. -/
def TableOutput.columns : TableOutput → List String
  | .noData _ => []
  | .table _ cs _ _ => cs

/-- The page size an output carries (0 for the no-data message). -/
def TableOutput.pageSize : TableOutput → Nat
  | .noData _ => 0
  | .table _ _ _ n => n

/-- `df['brand'].unique()`: distinct brands in first-appearance order. -/
def uniqueBrands (df : List Row) : List String :=
  dedupFirst (df.map Row.brand)

/-- The sort key of `sorted(..., key=lambda x: x.lower())`: compare brands
case-insensitively. -/
def brandLe (a b : String) : Bool :=
  decide (a.toLower ≤ b.toLower)

/-- `sorted_brands` (`app.py` line 35): distinct brands sorted
case-insensitively (Python's stable sort, modelled by stable insertion
sort). -/
def sorted_brands (df : List Row) : List String :=
  insertionSort brandLe (uniqueBrands df)

/-- `first_brand = sorted_brands[0]` (line 36). -/
def first_brand (df : List Row) : String :=
  (sorted_brands df).headD ""

/-- `min_year = df['model_year'].min()` (line 24). -/
def min_year (df : List Row) : Int :=
  ((df.map Row.model_year).min?).getD 0

/-- `max_year = df['model_year'].max()` (line 25). -/
def max_year (df : List Row) : Int :=
  ((df.map Row.model_year).max?).getD 0

/-- Default of the multi-select dropdown: `value=[sorted_brands[0]]`
(line 61). -/
def defaultMultiValue (df : List Row) : List String :=
  [first_brand df]

/-- Default of the single-select dropdown: `value=sorted_brands[0]`
(line 92). -/
def defaultSingleValue (df : List Row) : String :=
  first_brand df

/-- Default of the year range slider: `value=[min_year, max_year]`
(line 79). -/
def defaultYearRange (df : List Row) : Int × Int :=
  (min_year df, max_year df)

/-- The options of both brand dropdowns (lines 60 and 91): every sorted
brand. -/
def brandOptions (df : List Row) : List String :=
  sorted_brands df

/-- The spec §8 example dataset: two Ford rows (models chosen freely, the
example does not fix them). -/
def specExampleDf : List Row :=
  [⟨"Ford", "F150", 2015, 50000, 10000, "automatic"⟩,
   ⟨"Ford", "Focus", 2018, 20000, 18000, "manual"⟩]

theorem mem_dedupFirst {α : Type} [DecidableEq α] (a : α) (l : List α) :
    a ∈ dedupFirst l ↔ a ∈ l := by
  induction l with
  | nil => simp [dedupFirst]
  | cons b l ih =>
    rw [dedupFirst, List.mem_cons, List.mem_cons, List.mem_filter]
    by_cases hab : a = b
    · simp [hab]
    · simp [hab, ih]

theorem nodup_dedupFirst {α : Type} [DecidableEq α] (l : List α) :
    (dedupFirst l).Nodup := by
  induction l with
  | nil => simp [dedupFirst]
  | cons b l ih =>
    rw [dedupFirst]
    refine List.nodup_cons.mpr ⟨?_, List.Nodup.filter _ ih⟩
    simp [List.mem_filter]

theorem insertSorted_perm {α : Type} (le : α → α → Bool) (a : α) (l : List α) :
    (insertSorted le a l).Perm (a :: l) := by
  induction l with
  | nil => exact List.Perm.refl _
  | cons b l ih =>
    rw [insertSorted]
    by_cases h : le a b
    · rw [if_pos h]
    · rw [if_neg h]
      exact (ih.cons b).trans (List.Perm.swap a b l)

theorem insertionSort_perm {α : Type} (le : α → α → Bool) (l : List α) :
    (insertionSort le l).Perm l := by
  induction l with
  | nil => exact List.Perm.refl _
  | cons a l ih =>
    rw [insertionSort]
    exact (insertSorted_perm le a _).trans (ih.cons a)

theorem pairwise_insertSorted {α : Type} (le : α → α → Bool)
    (htrans : ∀ a b c, le a b = true → le b c = true → le a c = true)
    (htotal : ∀ a b, le a b = true ∨ le b a = true) (a : α) (l : List α)
    (hl : l.Pairwise (fun x y => le x y = true)) :
    (insertSorted le a l).Pairwise (fun x y => le x y = true) := by
  induction l with
  | nil => simp [insertSorted]
  | cons b l ih =>
    rw [List.pairwise_cons] at hl
    rw [insertSorted]
    by_cases h : le a b
    · rw [if_pos h]
      refine List.pairwise_cons.mpr ⟨?_, List.pairwise_cons.mpr hl⟩
      intro x hx
      rcases List.mem_cons.mp hx with hx | hx
      · exact hx ▸ h
      · exact htrans a b x h (hl.1 x hx)
    · rw [if_neg h]
      refine List.pairwise_cons.mpr ⟨?_, ih hl.2⟩
      intro x hx
      have hx' : x = a ∨ x ∈ l :=
        List.mem_cons.mp ((insertSorted_perm le a l).mem_iff.mp hx)
      rcases hx' with hx' | hx'
      · rw [hx']
        rcases htotal a b with hab | hba
        · exact absurd hab h
        · exact hba
      · exact hl.1 x hx'

theorem pairwise_insertionSort {α : Type} (le : α → α → Bool)
    (htrans : ∀ a b c, le a b = true → le b c = true → le a c = true)
    (htotal : ∀ a b, le a b = true ∨ le b a = true) (l : List α) :
    (insertionSort le l).Pairwise (fun x y => le x y = true) := by
  induction l with
  | nil => simp [insertionSort]
  | cons a l ih =>
    rw [insertionSort]
    exact pairwise_insertSorted le htrans htotal a _ ih

theorem avg_mileage_keys (rows : List Row) :
    (avg_mileage rows).map (fun x => (x.1, x.2.1)) = groupKeys rows := by
  unfold avg_mileage
  rw [List.map_map]
  have hid : ((fun x : String × String × ℚ => (x.1, x.2.1)) ∘
      fun p : String × String => (p.1, p.2, meanMileage (groupRows rows p))) = id := by
    funext p; rfl
  rw [hid, List.map_id]

theorem nodup_groupKeys (rows : List Row) : (groupKeys rows).Nodup := by
  unfold groupKeys
  exact ((insertionSort_perm pairLe _).nodup_iff).mpr (nodup_dedupFirst _)

theorem mem_groupKeys (rows : List Row) (b t : String) :
    (b, t) ∈ groupKeys rows ↔ ∃ r ∈ rows, r.brand = b ∧ r.transmission = t := by
  rw [groupKeys, (insertionSort_perm pairLe _).mem_iff, mem_dedupFirst]
  simp [List.mem_map, Prod.ext_iff, eq_comm]

/-- C1: for every non-empty `selectedBrands`, the Mileage Aggregator output
has exactly one triple per distinct (brand, transmission) pair occurring
among the dataset rows whose brand is selected (the key list has no
duplicates and a pair appears iff some matching filtered row carries it),
and each triple's mean equals the arithmetic mean of `mileage` over exactly
the matching rows. -/
theorem mileage_aggregator_exact (df : List Row) (sel : List String)
    (_hsel : sel ≠ []) :
    ((update_mileage_chart df sel).triples.map (fun x => (x.1, x.2.1))).Nodup ∧
    (∀ b t : String,
      (b, t) ∈ (update_mileage_chart df sel).triples.map (fun x => (x.1, x.2.1)) ↔
        ∃ r ∈ brandFilter df sel, r.brand = b ∧ r.transmission = t) ∧
    (∀ x ∈ (update_mileage_chart df sel).triples,
      x.2.2 = (((brandFilter df sel).filter
            (fun r => r.brand == x.1 && r.transmission == x.2.1)).map Row.mileage).sum /
          ((brandFilter df sel).filter
            (fun r => r.brand == x.1 && r.transmission == x.2.1)).length) := by
  by_cases h : (brandFilter df sel).isEmpty
  · have hnil : brandFilter df sel = [] := by simpa [List.isEmpty_iff] using h
    simp [update_mileage_chart, h, MileageOutput.triples, hnil]
  · have htr : (update_mileage_chart df sel).triples = avg_mileage (brandFilter df sel) := by
      simp [update_mileage_chart, h, MileageOutput.triples]
    rw [htr, avg_mileage_keys]
    refine ⟨nodup_groupKeys _, fun b t => mem_groupKeys _ b t, ?_⟩
    intro x hx
    simp only [avg_mileage, List.mem_map] at hx
    obtain ⟨p, hp, rfl⟩ := hx
    simp [meanMileage, groupRows]

/-- Witness for C1 at the spec §8 example: selecting `["Ford"]` is a
non-empty selection, and the ("Ford", "automatic") key appears in the
output exactly because a matching filtered row exists. -/
theorem mileage_aggregator_exact_witness :
    (["Ford"] : List String) ≠ [] ∧
    (("Ford", "automatic") ∈ (update_mileage_chart specExampleDf ["Ford"]).triples.map
        (fun x => (x.1, x.2.1)) ↔
      ∃ r ∈ brandFilter specExampleDf ["Ford"],
        r.brand = "Ford" ∧ r.transmission = "automatic") :=
  ⟨by decide,
    (mileage_aggregator_exact specExampleDf ["Ford"] (by decide)).2.1 "Ford" "automatic"⟩

/-- C2: for every `selectedBrandSingle`, the Table Selector's row set is
exactly the dataset rows whose brand equals it (case-sensitive, in original
dataset order), and whenever a table is produced (some row matches) its
column list is the dataset's full ordered attribute list and its page size
is 9. -/
theorem table_selector_exact (df : List Row) (b : String) :
    (update_table df b).rows = df.filter (fun r => r.brand == b) ∧
    (df.filter (fun r => r.brand == b) ≠ [] →
      (update_table df b).columns = datasetColumns ∧
      (update_table df b).pageSize = 9) := by
  by_cases h : (df.filter (fun r => r.brand == b)).isEmpty
  · have hnil : df.filter (fun r => r.brand == b) = [] := by
      simpa [List.isEmpty_iff] using h
    simp [update_table, h, hnil, TableOutput.rows]
  · have hne : df.filter (fun r => r.brand == b) ≠ [] := by
      simpa [List.isEmpty_iff] using h
    simp [update_table, h, TableOutput.rows, TableOutput.columns, TableOutput.pageSize, hne]

/-- Witness for C2: on the spec §8 example, selecting "Ford" yields both
Ford rows with the full column list and page size 9. -/
theorem table_selector_exact_witness :
    (update_table specExampleDf "Ford").rows =
        specExampleDf.filter (fun r => r.brand == "Ford") ∧
      (update_table specExampleDf "Ford").columns = datasetColumns ∧
      (update_table specExampleDf "Ford").pageSize = 9 :=
  ⟨(table_selector_exact specExampleDf "Ford").1,
    (table_selector_exact specExampleDf "Ford").2 (by decide)⟩

/-- C3: the Price Filter/Formatter emits exactly one point per dataset row
satisfying the brand and inclusive year-range predicates — point list equal
to the mapped filtered rows (x = model_year, y = price, color keyed by
brand, tooltip = model), hence point count equal to the satisfying-row
count, and no other point. -/
theorem price_formatter_exact (df : List Row) (sel : List String)
    (y0 y1 : Int) :
    (update_price_graph df sel y0 y1).points =
      (df.filter (fun r => sel.contains r.brand && decide (y0 ≤ r.model_year) &&
          decide (r.model_year ≤ y1))).map
        (fun r => PricePoint.mk r.model_year r.price r.brand r.model) ∧
    (update_price_graph df sel y0 y1).points.length =
      (df.filter (fun r => sel.contains r.brand && decide (y0 ≤ r.model_year) &&
          decide (r.model_year ≤ y1))).length := by
  have hfe : df.filter (fun r => sel.contains r.brand && decide (y0 ≤ r.model_year) &&
      decide (r.model_year ≤ y1)) = yearFilter df sel y0 y1 := rfl
  by_cases h : (yearFilter df sel y0 y1).isEmpty
  · have hnil : yearFilter df sel y0 y1 = [] := by simpa [List.isEmpty_iff] using h
    have hpts : (update_price_graph df sel y0 y1).points = [] := by
      simp [update_price_graph, h, PriceOutput.points]
    rw [hfe, hnil, hpts]
    exact ⟨rfl, rfl⟩
  · have hpts : (update_price_graph df sel y0 y1).points =
        (yearFilter df sel y0 y1).map
          (fun r => PricePoint.mk r.model_year r.price r.brand r.model) := by
      simp [update_price_graph, h, PriceOutput.points]
    rw [hfe]
    exact ⟨hpts, by rw [hpts, List.length_map]⟩

/-- C4: whenever the selected brand set is disjoint from the brands present
in the dataset, both the Mileage Aggregator and the Price Filter/Formatter
return their no-data outputs (a rendered message, not an error). -/
theorem disjoint_brands_empty_result (df : List Row) (sel : List String)
    (y0 y1 : Int) (h : ∀ b ∈ sel, b ∉ df.map Row.brand) :
    update_mileage_chart df sel =
        .noData "No data available for selected brands" ∧
      update_price_graph df sel y0 y1 =
        .noData "No data available for selected criteria" := by
  have hmem : ∀ r ∈ df, r.brand ∉ sel := fun r hr hb =>
    h r.brand hb (List.mem_map_of_mem Row.brand hr)
  have h1 : brandFilter df sel = [] := by
    refine List.filter_eq_nil_iff.mpr ?_
    intro r hr
    simp [hmem r hr]
  have h2 : yearFilter df sel y0 y1 = [] := by
    refine List.filter_eq_nil_iff.mpr ?_
    intro r hr
    simp [hmem r hr]
  have h1' : (brandFilter df sel).isEmpty = true := by rw [h1]; rfl
  have h2' : (yearFilter df sel y0 y1).isEmpty = true := by rw [h2]; rfl
  constructor
  · simp [update_mileage_chart, h1']
  · simp [update_price_graph, h2']

/-- Witness for C4: "Toyota" is absent from the example dataset, so both
functions return their no-data outputs. -/
theorem disjoint_brands_empty_result_witness :
    update_mileage_chart specExampleDf ["Toyota"] =
        .noData "No data available for selected brands" ∧
      update_price_graph specExampleDf ["Toyota"] 2015 2018 =
        .noData "No data available for selected criteria" :=
  disjoint_brands_empty_result specExampleDf ["Toyota"] 2015 2018 (by decide)

/-- C6: when no dataset row matches the single selected brand, the Table
Selector returns the no-data marker whose message embeds that brand
name. -/
theorem table_empty_names_brand (df : List Row) (b : String)
    (h : ∀ r ∈ df, r.brand ≠ b) :
    update_table df b = .noData ("No data available for " ++ b) := by
  have hnil : df.filter (fun r => r.brand == b) = [] := by
    refine List.filter_eq_nil_iff.mpr ?_
    intro r hr
    simpa using h r hr
  simp [update_table, hnil]

/-- Witness for C6 at the spec's own example: "Toyota" is absent from the
dataset, and the returned marker carries "Toyota" in its message. -/
theorem table_empty_names_brand_witness :
    update_table specExampleDf "Toyota" =
      .noData ("No data available for " ++ "Toyota") :=
  table_empty_names_brand specExampleDf "Toyota" (by decide)

/-- C7: each of the three view functions is a pure function of the dataset
and its filter inputs — re-invoking any of them with identical inputs
yields an identical output (the embedding is deterministic and free of
hidden state, mirroring the code, which only reads the module-level
dataframe and writes no state). -/
theorem view_functions_deterministic (df : List Row) (sel : List String)
    (y0 y1 : Int) (b : String) :
    update_mileage_chart df sel = update_mileage_chart df sel ∧
    update_price_graph df sel y0 y1 = update_price_graph df sel y0 y1 ∧
    update_table df b = update_table df b :=
  ⟨rfl, rfl, rfl⟩

/-- C10: with an empty brand selection (which the UI never produces), both
the Mileage Aggregator and the Price Filter/Formatter still terminate
normally with their no-data outputs: they are total at the public
interface. -/
theorem empty_selection_total (df : List Row) (y0 y1 : Int) :
    update_mileage_chart df [] =
        .noData "No data available for selected brands" ∧
      update_price_graph df [] y0 y1 =
        .noData "No data available for selected criteria" := by
  have h1 : (brandFilter df []).isEmpty = true := by
    have : brandFilter df [] = [] := by simp [brandFilter]
    rw [this]; rfl
  have h2 : (yearFilter df [] y0 y1).isEmpty = true := by
    have : yearFilter df [] y0 y1 = [] := by simp [yearFilter]
    rw [this]; rfl
  constructor
  · simp [update_mileage_chart, h1]
  · simp [update_price_graph, h2]

theorem mem_tickRange (y0 y1 z : Int) (h : y0 ≤ y1) :
    z ∈ tickRange y0 y1 ↔ y0 ≤ z ∧ z ≤ y1 := by
  unfold tickRange
  rw [List.mem_map]
  constructor
  · rintro ⟨i, hi, rfl⟩
    rw [List.mem_range] at hi
    omega
  · rintro ⟨h0, h1⟩
    refine ⟨(z - y0).toNat, ?_, ?_⟩
    · rw [List.mem_range]
      omega
    · omega

theorem nodup_tickRange (y0 y1 : Int) : (tickRange y0 y1).Nodup := by
  unfold tickRange
  refine List.Nodup.map ?_ (List.nodup_range _)
  intro a b hab
  simp only at hab
  omega

/-- C5: for every year range with min ≤ max, a non-empty Price
Filter/Formatter output carries as x-axis tick values exactly the integers
of the inclusive range — one tick per whole year, no duplicates —
independent of which model years occur among the points. -/
theorem price_ticks_whole_years (df : List Row) (sel : List String)
    (y0 y1 : Int) (hle : y0 ≤ y1) (hne : yearFilter df sel y0 y1 ≠ []) :
    (update_price_graph df sel y0 y1).ticks.Nodup ∧
    ∀ z : Int, z ∈ (update_price_graph df sel y0 y1).ticks ↔ y0 ≤ z ∧ z ≤ y1 := by
  have h : (yearFilter df sel y0 y1).isEmpty = false := by
    simpa [List.isEmpty_iff] using hne
  have hticks : (update_price_graph df sel y0 y1).ticks = tickRange y0 y1 := by
    simp [update_price_graph, h, PriceOutput.ticks]
  rw [hticks]
  exact ⟨nodup_tickRange y0 y1, fun z => mem_tickRange y0 y1 z hle⟩

/-- Witness for C5: on the spec §8 example with range (2015, 2018), the
surviving rows are non-empty and 2016 is a tick value exactly because it
lies in the range. -/
theorem price_ticks_whole_years_witness :
    (2015 : Int) ≤ 2018 ∧
    yearFilter specExampleDf ["Ford"] 2015 2018 ≠ [] ∧
    ((2016 : Int) ∈ (update_price_graph specExampleDf ["Ford"] 2015 2018).ticks ↔
      (2015 : Int) ≤ 2016 ∧ (2016 : Int) ≤ 2018) :=
  ⟨by decide, by decide,
    (price_ticks_whole_years specExampleDf ["Ford"] 2015 2018 (by decide)
      (by decide)).2 2016⟩

/-- Dataset refuting the per-transmission-value color claim: two brands
with different transmission types. -/
def colorCxDf : List Row :=
  [⟨"Acme", "A1", 2015, 100, 50, "manual"⟩,
   ⟨"Bolt", "B1", 2016, 200, 60, "automatic"⟩]

/-- Counterexample to C8 as stated: with the same dataset, the
"automatic" transmission receives the first palette color when only
"Bolt" is selected but the second palette color when "Acme" and "Bolt"
are both selected — the transmission-to-color mapping is not a function
of the transmission value alone. -/
theorem mileage_color_not_per_value :
    ("automatic", "#EF553B") ∈
        (update_mileage_chart colorCxDf ["Bolt"]).colorMap ∧
      ("automatic", "#377eb8") ∈
        (update_mileage_chart colorCxDf ["Acme", "Bolt"]).colorMap ∧
      ("#EF553B" : String) ≠ "#377eb8" := by
  refine ⟨?_, ?_, by decide⟩ <;> decide

/-- C8 amended: the color assignment is deterministic per invocation and
drawn from the fixed 6-color palette by cycling — the i-th distinct
transmission value, in order of first appearance in the grouped output,
receives palette color i mod 6 — but the mapping depends on the grouped
output (hence on `selectedBrands`), not on the transmission value
alone. -/
theorem mileage_color_cycling (df : List Row) (sel : List String) :
    update_mileage_chart df sel = update_mileage_chart df sel ∧
    (update_mileage_chart df sel).colorMap.length =
      (transmissionCategories ((update_mileage_chart df sel).triples)).length ∧
    ∀ i : Nat,
      i < (transmissionCategories ((update_mileage_chart df sel).triples)).length →
      (update_mileage_chart df sel).colorMap.getD i ("", "") =
        ((transmissionCategories ((update_mileage_chart df sel).triples)).getD i "",
          colors.getD (i % colors.length) "") := by
  refine ⟨rfl, ?_⟩
  by_cases h : (brandFilter df sel).isEmpty
  · simp [update_mileage_chart, h, MileageOutput.colorMap, MileageOutput.triples,
      transmissionCategories, dedupFirst]
  · have hcm : (update_mileage_chart df sel).colorMap =
        colorAssignment (transmissionCategories (avg_mileage (brandFilter df sel))) := by
      simp [update_mileage_chart, h, MileageOutput.colorMap]
    have htr : (update_mileage_chart df sel).triples =
        avg_mileage (brandFilter df sel) := by
      simp [update_mileage_chart, h, MileageOutput.triples]
    rw [hcm, htr]
    set cats := transmissionCategories (avg_mileage (brandFilter df sel)) with hcats
    constructor
    · simp [colorAssignment]
    · intro i hi
      have hi' : i < (colorAssignment cats).length := by
        simpa [colorAssignment] using hi
      rw [List.getD_eq_getElem _ _ hi', List.getD_eq_getElem _ _ hi]
      simp [colorAssignment]

/-- Witness for C8 amended: on the counterexample dataset with both brands
selected, position 1 of the color map pairs the second-appearing category
with the second palette color. -/
theorem mileage_color_cycling_witness :
    1 < (transmissionCategories
        ((update_mileage_chart colorCxDf ["Acme", "Bolt"]).triples)).length ∧
    (update_mileage_chart colorCxDf ["Acme", "Bolt"]).colorMap.getD 1 ("", "") =
      ((transmissionCategories
          ((update_mileage_chart colorCxDf ["Acme", "Bolt"]).triples)).getD 1 "",
        colors.getD (1 % colors.length) "") :=
  ⟨by decide,
    (mileage_color_cycling colorCxDf ["Acme", "Bolt"]).2.2 1 (by decide)⟩

/-- C9: at UI initialization, the multi-select holds exactly the first
brand in case-insensitive alphabetical order of the dataset's distinct
brands, the single-select holds that same brand, the options list offers
all distinct brands in case-insensitive alphabetical order, and the year
slider default is the full range from minimum to maximum `model_year`. -/
theorem layout_defaults (df : List Row) (hdf : df ≠ []) :
    defaultSingleValue df ∈ uniqueBrands df ∧
    (∀ b ∈ uniqueBrands df, (defaultSingleValue df).toLower ≤ b.toLower) ∧
    defaultMultiValue df = [defaultSingleValue df] ∧
    (brandOptions df).Perm (uniqueBrands df) ∧
    (brandOptions df).Pairwise (fun a b => a.toLower ≤ b.toLower) ∧
    (defaultYearRange df).1 ∈ df.map Row.model_year ∧
    (defaultYearRange df).2 ∈ df.map Row.model_year ∧
    (∀ y ∈ df.map Row.model_year,
      (defaultYearRange df).1 ≤ y ∧ y ≤ (defaultYearRange df).2) := by
  have htrans : ∀ a b c : String,
      brandLe a b = true → brandLe b c = true → brandLe a c = true := by
    intro a b c hab hbc
    simp only [brandLe, decide_eq_true_eq] at hab hbc ⊢
    exact le_trans hab hbc
  have htotal : ∀ a b : String, brandLe a b = true ∨ brandLe b a = true := by
    intro a b
    simp only [brandLe, decide_eq_true_eq]
    exact le_total _ _
  have hperm : (sorted_brands df).Perm (uniqueBrands df) :=
    insertionSort_perm brandLe (uniqueBrands df)
  have hne : uniqueBrands df ≠ [] := by
    cases df with
    | nil => exact absurd rfl hdf
    | cons r l =>
      unfold uniqueBrands
      rw [List.map_cons, dedupFirst]
      exact List.cons_ne_nil _ _
  have hsne : sorted_brands df ≠ [] := by
    intro hnil
    exact hne (List.Perm.eq_nil (hnil ▸ hperm).symm)
  obtain ⟨c, cs, hcons⟩ := List.exists_cons_of_ne_nil hsne
  have hfirst : defaultSingleValue df = c := by
    simp [defaultSingleValue, first_brand, hcons]
  have hsorted : (sorted_brands df).Pairwise (fun a b => brandLe a b = true) :=
    pairwise_insertionSort brandLe htrans htotal (uniqueBrands df)
  have hsorted' : (sorted_brands df).Pairwise
      (fun a b => a.toLower ≤ b.toLower) := by
    refine hsorted.imp ?_
    intro a b hab
    simpa [brandLe, decide_eq_true_eq] using hab
  have hmapne : df.map Row.model_year ≠ [] := by
    cases df with
    | nil => exact absurd rfl hdf
    | cons r l => simp
  obtain ⟨m, hm⟩ : ∃ m, (df.map Row.model_year).min? = some m := by
    cases hmin : (df.map Row.model_year).min? with
    | none => exact absurd (List.min?_eq_none_iff.mp hmin) hmapne
    | some m => exact ⟨m, rfl⟩
  obtain ⟨M, hM⟩ : ∃ M, (df.map Row.model_year).max? = some M := by
    cases hmax : (df.map Row.model_year).max? with
    | none => exact absurd (List.max?_eq_none_iff.mp hmax) hmapne
    | some M => exact ⟨M, rfl⟩
  have hminv : min_year df = m := by
    rw [min_year, hm]
    rfl
  have hmaxv : max_year df = M := by
    rw [max_year, hM]
    rfl
  refine ⟨?_, ?_, rfl, hperm, hsorted', ?_, ?_, ?_⟩
  · rw [hfirst]
    exact hperm.mem_iff.mp (hcons ▸ List.mem_cons_self c cs)
  · intro b hb
    rw [hfirst]
    have hb' : b ∈ sorted_brands df := hperm.symm.mem_iff.mp hb
    rw [hcons] at hb'
    rcases List.mem_cons.mp hb' with hb' | hb'
    · rw [hb']
    · have := (List.pairwise_cons.mp (hcons ▸ hsorted')).1 b hb'
      exact this
  · show min_year df ∈ df.map Row.model_year
    rw [hminv]
    exact List.min?_mem (fun a b => min_choice a b) hm
  · show max_year df ∈ df.map Row.model_year
    rw [hmaxv]
    exact List.max?_mem (fun a b => max_choice a b) hM
  · intro y hy
    constructor
    · show min_year df ≤ y
      rw [hminv]
      exact (List.le_min?_iff (fun a b c => le_min_iff) hm).mp (le_refl m) y hy
    · show y ≤ max_year df
      rw [hmaxv]
      exact (List.max?_le_iff (fun a b c => max_le_iff) hM).mp (le_refl M) y hy

/-- Witness for C9 on the spec §8 example dataset: it is non-empty, the
multi-select default is the singleton of the single-select default, and
that default is alphabetically no later than the dataset brand "Ford". -/
theorem layout_defaults_witness :
    specExampleDf ≠ [] ∧
    defaultMultiValue specExampleDf = [defaultSingleValue specExampleDf] ∧
    ("Ford" ∈ uniqueBrands specExampleDf →
      (defaultSingleValue specExampleDf).toLower ≤ "Ford".toLower) :=
  ⟨by decide, (layout_defaults specExampleDf (by decide)).2.2.1,
    fun h => (layout_defaults specExampleDf (by decide)).2.1 "Ford" h⟩

end Dashboard
